import Mathlib

/-!
Shallow embedding of the behavior-analysis / recommendation core
(`BehaviorAnalyzer` and `RealTimeRecommender`) of the `ds` repository.

Modelling conventions:
* Python numbers (ints and floats) are modelled as rationals `ℚ`;
  SQL integer columns that may be negative (e.g. `UserSession.duration`,
  which the HTTP layer fills from a client-supplied `total_time`) are `ℤ`.
* A nullable column / Python `None` is an `Option`.
* A Python dict of features is modelled as a structure of `Option` fields:
  a `none` field models a missing key (`features[k]` raising `KeyError`).
* A data-store read that can raise is modelled with `Option`:
  `Session.events = none` models `session.events.all()` raising, which the
  source catches and converts to an empty feature dict / empty interests.
* `datetime.utcnow().isoformat()` is modelled by threading the current
  time through as an explicit `String` parameter.
* Python truthiness of `product_id` (`if e.product_id`) is false for both
  `None` and `0`.
-/

namespace DS

/-- One `UserEvent` row as seen by the analyzer: only `event_type` and
`product_id` are read by the analysis code. -/
structure Event where
  event_type : String
  product_id : Option ℤ
deriving Repr, DecidableEq

/-- A `UserSession` as seen by `BehaviorAnalyzer`: its nullable integer
`duration` and its event list (`none` = the event query raised). -/
structure Session where
  duration : Option ℤ
  events : Option (List Event)
deriving Repr, DecidableEq

/-- The feature dict built by `extract_session_features`; each field is
`Option` so that a missing dict key is representable. -/
structure FeatDict where
  session_duration : Option ℚ
  total_events : Option ℚ
  product_views : Option ℚ
  image_clicks : Option ℚ
  video_plays : Option ℚ
  unique_products : Option ℚ
  avg_time_per_event : Option ℚ
deriving Repr, DecidableEq

/-- Python truthiness of an optional product id: `None` and `0` are falsy. -/
def truthyPid : Option ℤ → Bool
  | none => false
  | some n => n != 0

/-- `round(y, 2)` on a number: round to the nearest multiple of 1/100
(Python's float round; exact decimal ties, where Python would round half
to even, cannot arise from the feature arithmetic of this program). -/
def pyRound2 (y : ℚ) : ℚ := (round (y * 100) : ℚ) / 100

/-- `len([e for e in events if e.event_type == t])`. -/
def countType (evs : List Event) (t : String) : ℕ :=
  (evs.filter (fun e => e.event_type == t)).length

/-- The product ids of the events whose `product_id` is truthy, in order. -/
def truthyIds (evs : List Event) : List ℤ :=
  evs.filterMap (fun e => if truthyPid e.product_id then e.product_id else none)

/-- `len(set(e.product_id for e in events if e.product_id))`. -/
def uniqueProducts (evs : List Event) : ℕ := (truthyIds evs).dedup.length

/-- `session.duration / len(events) if events else 0`: evaluates the
division only when the event list is non-empty; a `None` duration there
raises a `TypeError` (modelled as `none`), which aborts the whole feature
dict construction. -/
def avgTimePerEvent (dur : Option ℤ) (evs : List Event) : Option ℚ :=
  if evs.isEmpty then some 0 else dur.map (fun d => (d : ℚ) / evs.length)

/-- `BehaviorAnalyzer.extract_session_features`: `none` models the
`except` branch returning the empty dict `{}` (event query raised, or the
`TypeError` from dividing a `None` duration). -/
def extract_session_features (s : Session) : Option FeatDict :=
  match s.events with
  | none => none
  | some evs =>
    match avgTimePerEvent s.duration evs with
    | none => none
    | some avg => some
      { session_duration := some ((s.duration.getD 0 : ℤ) : ℚ)
        total_events := some (evs.length : ℚ)
        product_views := some (countType evs "product_view" : ℚ)
        image_clicks := some (countType evs "image_click" : ℚ)
        video_plays := some (countType evs "video_play" : ℚ)
        unique_products := some (uniqueProducts evs : ℚ)
        avg_time_per_event := some avg }

/-- The loop body of `_calculate_engagement_score` once all six keys are
present: `score += min(features[k] / max_values[k], 1.0) * weight` over
the six weighted features, then `round(score * 100, 2)`. -/
def calcCore (sd te pv ic vp up : ℚ) : ℚ :=
  pyRound2 ((min (sd / 300) 1 * 0.2 + min (te / 20) 1 * 0.15 +
    min (pv / 10) 1 * 0.2 + min (ic / 15) 1 * 0.15 +
    min (vp / 5) 1 * 0.2 + min (up / 8) 1 * 0.1) * 100)

/-- `BehaviorAnalyzer._calculate_engagement_score`: a missing key raises
`KeyError`, caught by the `except` branch which returns `50.0`. -/
def calculate_engagement_score (f : FeatDict) : ℚ :=
  match f.session_duration, f.total_events, f.product_views,
        f.image_clicks, f.video_plays, f.unique_products with
  | some sd, some te, some pv, some ic, some vp, some up =>
      calcCore sd te pv ic vp up
  | _, _, _, _, _, _ => 50

/-- `BehaviorAnalyzer._classify_behavior_pattern`: the cascading
if/elif/else decision tree, with `features.get(k, 0)` reads. -/
def classify_behavior_pattern (f : FeatDict) (engagement_score : ℚ) : String :=
  if engagement_score ≥ 80 then "high_engagement"
  else if engagement_score ≥ 50 then
    if f.video_plays.getD 0 > 2 then "video_interested"
    else if f.unique_products.getD 0 > 5 then "browsing_intensive"
    else "moderate_engagement"
  else
    if f.session_duration.getD 0 < 30 then "bounce"
    else "low_engagement"

/-- The `interest_categories` record of `_extract_interests`; the
`last_updated` timestamp is absent in the `except` fallback. -/
structure Interests where
  viewed_products : List ℤ
  total_views : ℕ
  last_updated : Option String
deriving Repr, DecidableEq

/-- `BehaviorAnalyzer._extract_interests`: filters the session's
`product_view` events, keeps the truthy product ids (duplicates kept),
truncates the list to 10 but reports the full count, and stamps the
current time; the `except` branch returns `{[], 0}`. -/
def extract_interests (s : Session) (now : String) : Interests :=
  match s.events with
  | none => { viewed_products := [], total_views := 0, last_updated := none }
  | some evs =>
    let pids := truthyIds (evs.filter (fun e => e.event_type == "product_view"))
    { viewed_products := pids.take 10
      total_views := pids.length
      last_updated := some now }

/-- The analysis record; `features` is `Option` because
`_get_default_analysis` returns a dict without a `features` key. -/
structure Analysis where
  behavior_pattern : String
  engagement_score : ℚ
  interest_categories : Interests
  features : Option FeatDict
deriving Repr, DecidableEq

/-- `BehaviorAnalyzer._get_default_analysis`: three keys only, no
`features` key. -/
def default_analysis : Analysis :=
  { behavior_pattern := "unknown"
    engagement_score := 0
    interest_categories := { viewed_products := [], total_views := 0, last_updated := none }
    features := none }

/-- `BehaviorAnalyzer.analyze_behavior_pattern`: empty features short-
circuit to the default analysis; otherwise score, pattern, interests and
the features themselves are assembled. -/
def analyze_behavior_pattern (s : Session) (now : String) : Analysis :=
  match extract_session_features s with
  | none => default_analysis
  | some f =>
    { behavior_pattern := classify_behavior_pattern f (calculate_engagement_score f)
      engagement_score := calculate_engagement_score f
      interest_categories := extract_interests s now
      features := some f }

/-! ## Recommendation engine (`RealTimeRecommender`)

The recommender reads the shared `user_events` table and the product
catalog with its analytics; both are modelled as an explicit `Store`. -/

/-- One `UserEvent` row as seen by the recommender. -/
structure StoreEvent where
  session_id : String
  event_type : String
  product_id : Option ℤ
deriving Repr, DecidableEq

/-- A catalog product joined with its `ProductAnalytics` row. -/
structure CatalogEntry where
  product_id : ℤ
  status : String
  view_count : ℤ
deriving Repr, DecidableEq

/-- The data visible to `RealTimeRecommender`. -/
structure Store where
  events : List StoreEvent
  catalog : List CatalogEntry
deriving Repr, DecidableEq

/-- Insertion of `a` into `l` before the first element `b` with `r a b`. -/
def insertBy (r : α → α → Bool) (a : α) : List α → List α
  | [] => [a]
  | b :: bs => if r a b then a :: b :: bs else b :: insertBy r a bs

/-- Insertion sort by the relation `r` (used to model SQL `ORDER BY`). -/
def sortBy (r : α → α → Bool) : List α → List α
  | [] => []
  | a :: as => insertBy r a (sortBy r as)

/-- The truthy product ids of a list of store events, in order. -/
def truthyIdsOfStore (evs : List StoreEvent) : List ℤ :=
  evs.filterMap (fun e => if truthyPid e.product_id then e.product_id else none)

/-- `RealTimeRecommender._get_viewed_products`:
`list(set(e.product_id for e in events if e.product_id))` over the
session's `product_view` events. -/
def get_viewed_products (store : Store) (sessionId : String) : List ℤ :=
  (truthyIdsOfStore (store.events.filter
    (fun e => e.session_id == sessionId && e.event_type == "product_view"))).dedup

/-- `RealTimeRecommender._get_similar_products`: the body references
`db.func.count`, but `db` is never imported in the module, so building
the second query raises `NameError`; the `except` branch catches it and
returns `[]`. The co-visitation queries are therefore dead code and the
observable behavior is the constant empty list. -/
def get_similar_products (store : Store) (viewed_products excluded_ids : List ℤ)
    (limit : ℕ) : List ℤ :=
  []

/-- `RealTimeRecommender._get_popular_recommendations`: published catalog
products ordered by descending stored view count, first `limit` ids.
No exclusion set is applied on this path. -/
def get_popular_recommendations (store : Store) (limit : ℕ) : List ℤ :=
  (((sortBy (fun a b => b.view_count ≤ a.view_count)
      (store.catalog.filter (fun p => p.status == "published"))).take limit).map
    (fun p => p.product_id))

/-- `RealTimeRecommender.get_personalized_recommendations`: empty view
history goes straight to the popularity tier; otherwise the exclusion
set is built (a truthy `current_product_id` is added), Tier 1 is tried,
and an empty Tier-1 result falls back to the popularity tier. -/
def get_personalized_recommendations (store : Store) (sessionId : String)
    (current_product_id : Option ℤ) (limit : ℕ) : List ℤ :=
  let viewed_products := get_viewed_products store sessionId
  if viewed_products.isEmpty then get_popular_recommendations store limit
  else
    let excluded_ids := viewed_products ++
      (match current_product_id with
       | some c => if c ≠ 0 then [c] else []
       | none => [])
    let recommendations := get_similar_products store viewed_products excluded_ids limit
    if recommendations.isEmpty then get_popular_recommendations store limit
    else recommendations

/-! ## Spec-side definitions (for refinement comparison only)

These are written from the specification's words, not from the source,
and are only compared against the source-derived definitions above. -/

/-- `clamp(q, 0, 1)` as the spec words it. -/
def clamp01 (q : ℚ) : ℚ := min (max q 0) 1

/-- Spec formula for the engagement score, verbatim:
`100 × Σ(weight × clamp(value/ceiling, 0, 1))`, rounded to 2 decimals. -/
def engagementScoreSpecClamped (sd te pv ic vp up : ℚ) : ℚ :=
  pyRound2 (100 * (0.2 * clamp01 (sd / 300) + 0.15 * clamp01 (te / 20) +
    0.2 * clamp01 (pv / 10) + 0.15 * clamp01 (ic / 15) +
    0.2 * clamp01 (vp / 5) + 0.1 * clamp01 (up / 8)))

/-- Amended spec formula: the value/ceiling ratio is clamped above at 1
only (`min(·, 1)`), with no lower clamp at 0. -/
def engagementScoreSpecAmended (sd te pv ic vp up : ℚ) : ℚ :=
  pyRound2 (100 * (0.2 * min (sd / 300) 1 + 0.15 * min (te / 20) 1 +
    0.2 * min (pv / 10) 1 + 0.15 * min (ic / 15) 1 +
    0.2 * min (vp / 5) 1 + 0.1 * min (up / 8) 1))

/-- Spec decision tree for `classifyPattern`, with the spec's explicit
score intervals, evaluated top-down first-match-wins. -/
def classifyPatternSpec (f : FeatDict) (score : ℚ) : String :=
  if 80 ≤ score then "high_engagement"
  else if 50 ≤ score ∧ score < 80 then
    if f.video_plays.getD 0 > 2 then "video_interested"
    else if f.unique_products.getD 0 > 5 then "browsing_intensive"
    else "moderate_engagement"
  else
    if f.session_duration.getD 0 < 30 then "bounce"
    else "low_engagement"

/-- Spec Tier-1 co-visitation algorithm, step by step from the spec: up
to 100 distinct *other* contributing sessions that viewed one of the
session's viewed products; count their `product_view` events per
non-null, non-excluded product id; top-`limit` by descending count
(ties by ascending product id). -/
def similarProductsSpec (store : Store) (requestingSession : String)
    (viewed_products excluded_ids : List ℤ) (limit : ℕ) : List ℤ :=
  let contributing :=
    ((store.events.filter (fun e => e.event_type == "product_view" &&
        (match e.product_id with
         | some p => viewed_products.contains p
         | none => false) &&
        e.session_id != requestingSession)).map (fun e => e.session_id)).dedup.take 100
  let candidate_ids := (store.events.filter (fun e =>
      e.event_type == "product_view" && contributing.contains e.session_id &&
      (match e.product_id with
       | some p => !(excluded_ids.contains p)
       | none => false))).filterMap (fun e => e.product_id)
  (sortBy (fun a b =>
      let ca : ℕ := candidate_ids.count a
      let cb : ℕ := candidate_ids.count b
      cb < ca || (cb == ca && a ≤ b))
    candidate_ids.dedup).take limit

/-! ## Concrete inputs used in counterexamples and witnesses -/

/-- A feature dict with a negative `session_duration` (reachable: the
HTTP layer stores a client-supplied `total_time` into `duration`). -/
def negFeat : FeatDict :=
  ⟨some (-3000), some 0, some 0, some 0, some 0, some 0, some 0⟩

/-- An all-zero feature dict. -/
def zeroFeat : FeatDict :=
  ⟨some 0, some 0, some 0, some 0, some 0, some 0, some 0⟩

/-- A session whose nullable `duration` is NULL but which has one event. -/
def noDurationSession : Session := ⟨none, some [⟨"product_view", some 1⟩]⟩

/-- Three `product_view` events: a duplicated product id and a null id. -/
def evs7 : List Event :=
  [⟨"product_view", some 1⟩, ⟨"product_view", some 1⟩, ⟨"product_view", none⟩]

/-- Session for the interest-extraction counterexample. -/
def s7 : Session := ⟨some 0, some evs7⟩

/-- A simple session with one viewed product. -/
def s9 : Session := ⟨some 0, some [⟨"product_view", some 1⟩]⟩

/-- A session whose event query raises (extraction fails entirely). -/
def sBad : Session := ⟨some 0, none⟩

/-- A store where session `s` viewed product 1, and product 1 is the most
popular published product. -/
def store1 : Store := ⟨[⟨"s", "product_view", some 1⟩], [⟨1, "published", 5⟩]⟩

/-- A store where session `s` viewed product 1 and session `t` viewed
products 1 and 2: co-visitation should recommend product 2 to `s`. -/
def store8 : Store :=
  ⟨[⟨"s", "product_view", some 1⟩, ⟨"t", "product_view", some 1⟩,
    ⟨"t", "product_view", some 2⟩], []⟩

/-! ## Claim theorems -/

/-- Claim C1, counterexample: the claim says a recommendation result
never contains the session's already-viewed product ids, but on `store1`
session `s` has viewed product 1 and the engine (whose Tier 1 always
degrades and whose popularity tier applies no exclusion) returns `[1]`,
which contains the viewed product 1. -/
theorem c1_counterexample :
    get_personalized_recommendations store1 "s" none 5 = [1] ∧
    get_viewed_products store1 "s" = [1] := ⟨rfl, rfl⟩

/-- Claim C1, amended: for every store, session, optional current
product id and limit, `getRecommendations` returns at most `limit` ids
(and is a total function — internal failures degrade to the popularity
tier or the empty list); the exclusion guarantee does not hold because
the popularity fallback applies no exclusion set. -/
theorem c1_amended (store : Store) (sessionId : String)
    (current_product_id : Option ℤ) (limit : ℕ) :
    (get_personalized_recommendations store sessionId current_product_id limit).length ≤ limit := by
  have hp : ∀ l : ℕ, (get_popular_recommendations store l).length ≤ l := by
    intro l
    simp [get_popular_recommendations, List.length_take]
  by_cases h : (get_viewed_products store sessionId).isEmpty <;>
    simp [get_personalized_recommendations, h, get_similar_products, hp]

/-- Claim C2, counterexample: the claim's formula clamps each
`value/ceiling` to `[0,1]`, but the code only caps it above with
`min(·, 1.0)`; on a feature vector with `session_duration = -3000`
(reachable, since `duration` is stored from a client-supplied
`total_time`) the code returns `-200.0` while the claimed formula gives
`0.0`. -/
theorem c2_counterexample :
    calculate_engagement_score negFeat = -200 ∧
    engagementScoreSpecClamped (-3000) 0 0 0 0 0 = 0 ∧
    calculate_engagement_score negFeat ≠ engagementScoreSpecClamped (-3000) 0 0 0 0 0 := by
  have h1 : calculate_engagement_score negFeat = -200 := by
    norm_num [calculate_engagement_score, negFeat, calcCore, pyRound2, round_eq]
  have h2 : engagementScoreSpecClamped (-3000) 0 0 0 0 0 = 0 := by
    norm_num [engagementScoreSpecClamped, clamp01, pyRound2, round_eq]
  exact ⟨h1, h2, by rw [h1, h2]; norm_num⟩

/-- Claim C2, amended: on a feature dict containing all six weighted
features, `computeEngagementScore` equals 100 times the weighted sum of
`min(value/ceiling, 1)` (capped above at 1 only, with no lower clamp),
rounded to 2 decimal places; and when any of the six keys is missing
(the internal `KeyError` failure) it returns `50.0` rather than an
error. -/
theorem c2_amended :
    (∀ (sd te pv ic vp up : ℚ) (avg : Option ℚ),
       calculate_engagement_score ⟨some sd, some te, some pv, some ic, some vp, some up, avg⟩ =
         engagementScoreSpecAmended sd te pv ic vp up) ∧
    (∀ f : FeatDict,
       (f.session_duration = none ∨ f.total_events = none ∨ f.product_views = none ∨
        f.image_clicks = none ∨ f.video_plays = none ∨ f.unique_products = none) →
       calculate_engagement_score f = 50) := by
  constructor
  · intro sd te pv ic vp up avg
    show calcCore sd te pv ic vp up = _
    unfold calcCore engagementScoreSpecAmended
    congr 1
    ring
  · intro f h
    obtain ⟨osd, ote, opv, oic, ovp, oup, oav⟩ := f
    simp only at h
    cases osd <;> cases ote <;> cases opv <;> cases oic <;> cases ovp <;> cases oup <;>
      first
        | rfl
        | simp_all

/-- Witness for `c2_amended`: on the empty feature dict the score is the
neutral default 50. -/
theorem c2_amended_witness :
    calculate_engagement_score ⟨none, none, none, none, none, none, none⟩ = 50 :=
  c2_amended.2 _ (Or.inl rfl)

/-- Claim C3, counterexample: the claim says the score always lies in
`[0, 100]`, but on a feature vector with `session_duration = -3000` the
code returns `-200.0 < 0` (there is no lower clamp). -/
theorem c3_counterexample : calculate_engagement_score negFeat < 0 := by
  norm_num [calculate_engagement_score, negFeat, calcCore, pyRound2, round_eq]

/-- Range of the score loop on six nonnegative feature values. -/
theorem calcCore_bounds (sd te pv ic vp up : ℚ) (h1 : 0 ≤ sd) (h2 : 0 ≤ te)
    (h3 : 0 ≤ pv) (h4 : 0 ≤ ic) (h5 : 0 ≤ vp) (h6 : 0 ≤ up) :
    0 ≤ calcCore sd te pv ic vp up ∧ calcCore sd te pv ic vp up ≤ 100 := by
  have m1l : (0:ℚ) ≤ min (sd / 300) 1 := le_min (by positivity) (by norm_num)
  have m2l : (0:ℚ) ≤ min (te / 20) 1 := le_min (by positivity) (by norm_num)
  have m3l : (0:ℚ) ≤ min (pv / 10) 1 := le_min (by positivity) (by norm_num)
  have m4l : (0:ℚ) ≤ min (ic / 15) 1 := le_min (by positivity) (by norm_num)
  have m5l : (0:ℚ) ≤ min (vp / 5) 1 := le_min (by positivity) (by norm_num)
  have m6l : (0:ℚ) ≤ min (up / 8) 1 := le_min (by positivity) (by norm_num)
  have m1u : min (sd / 300) 1 ≤ 1 := min_le_right _ _
  have m2u : min (te / 20) 1 ≤ 1 := min_le_right _ _
  have m3u : min (pv / 10) 1 ≤ 1 := min_le_right _ _
  have m4u : min (ic / 15) 1 ≤ 1 := min_le_right _ _
  have m5u : min (vp / 5) 1 ≤ 1 := min_le_right _ _
  have m6u : min (up / 8) 1 ≤ 1 := min_le_right _ _
  unfold calcCore pyRound2
  rw [round_eq]
  set S : ℚ := min (sd / 300) 1 * 0.2 + min (te / 20) 1 * 0.15 +
    min (pv / 10) 1 * 0.2 + min (ic / 15) 1 * 0.15 +
    min (vp / 5) 1 * 0.2 + min (up / 8) 1 * 0.1 with hS
  have hS0 : 0 ≤ S := by
    rw [hS]; nlinarith
  have hS1 : S ≤ 1 := by
    rw [hS]; nlinarith
  constructor
  · apply div_nonneg _ (by norm_num : (0:ℚ) ≤ 100)
    have hfl : (0:ℤ) ≤ ⌊S * 100 * 100 + 1/2⌋ := Int.floor_nonneg.mpr (by nlinarith)
    exact_mod_cast hfl
  · rw [div_le_iff₀ (by norm_num : (0:ℚ) < 100)]
    have hfl : ⌊S * 100 * 100 + 1/2⌋ ≤ 10000 := by
      have hle : S * 100 * 100 + 1/2 ≤ (10000 : ℚ) + 1/2 := by nlinarith
      have := Int.floor_mono hle
      have heq : ⌊(10000 : ℚ) + 1/2⌋ = 10000 := by
        norm_num [Int.floor_eq_iff]
      omega
    have hc : ((⌊S * 100 * 100 + 1/2⌋ : ℤ) : ℚ) ≤ 10000 := by exact_mod_cast hfl
    linarith

/-- Claim C3, amended: for every feature dict whose six weighted feature
values are nonnegative (where present), the engagement score lies in
`[0, 100]`; a missing key yields the default 50, also in range. -/
theorem c3_amended (f : FeatDict)
    (h1 : 0 ≤ f.session_duration.getD 0) (h2 : 0 ≤ f.total_events.getD 0)
    (h3 : 0 ≤ f.product_views.getD 0) (h4 : 0 ≤ f.image_clicks.getD 0)
    (h5 : 0 ≤ f.video_plays.getD 0) (h6 : 0 ≤ f.unique_products.getD 0) :
    0 ≤ calculate_engagement_score f ∧ calculate_engagement_score f ≤ 100 := by
  obtain ⟨osd, ote, opv, oic, ovp, oup, oav⟩ := f
  simp only at h1 h2 h3 h4 h5 h6
  have fifty : ∀ g : FeatDict, calculate_engagement_score g = 50 →
      0 ≤ calculate_engagement_score g ∧ calculate_engagement_score g ≤ 100 := by
    intro g hg
    rw [hg]
    norm_num
  rcases osd with _ | sd
  · exact fifty _ rfl
  rcases ote with _ | te
  · exact fifty _ rfl
  rcases opv with _ | pv
  · exact fifty _ rfl
  rcases oic with _ | ic
  · exact fifty _ rfl
  rcases ovp with _ | vp
  · exact fifty _ rfl
  rcases oup with _ | up
  · exact fifty _ rfl
  simp only [Option.getD_some] at h1 h2 h3 h4 h5 h6
  exact calcCore_bounds _ _ _ _ _ _ h1 h2 h3 h4 h5 h6

/-- Witness for `c3_amended` at the all-zero feature dict. -/
theorem c3_amended_witness :
    0 ≤ calculate_engagement_score zeroFeat ∧ calculate_engagement_score zeroFeat ≤ 100 :=
  c3_amended zeroFeat (le_refl 0) (le_refl 0) (le_refl 0) (le_refl 0) (le_refl 0) (le_refl 0)

/-- Claim C4, confirmed: `classifyPattern` equals the spec's top-down
first-match decision tree on every input, and the five documented
score/feature combinations map to their documented labels
(85 → high_engagement; 60 with video_plays=3 → video_interested;
60 with unique_products=6, video_plays=0 → browsing_intensive;
40 with duration=10 → bounce; 40 with duration=100 → low_engagement). -/
theorem c4_classify_decision_tree :
    (∀ (f : FeatDict) (score : ℚ),
      classify_behavior_pattern f score = classifyPatternSpec f score) ∧
    classify_behavior_pattern zeroFeat 85 = "high_engagement" ∧
    classify_behavior_pattern ⟨some 0, some 0, some 0, some 0, some 3, some 0, some 0⟩ 60 = "video_interested" ∧
    classify_behavior_pattern ⟨some 0, some 0, some 0, some 0, some 0, some 6, some 0⟩ 60 = "browsing_intensive" ∧
    classify_behavior_pattern ⟨some 10, some 0, some 0, some 0, some 0, some 0, some 0⟩ 40 = "bounce" ∧
    classify_behavior_pattern ⟨some 100, some 0, some 0, some 0, some 0, some 0, some 0⟩ 40 = "low_engagement" := by
  refine ⟨?_, rfl, rfl, rfl, rfl, rfl⟩
  intro f score
  unfold classify_behavior_pattern classifyPatternSpec
  split_ifs <;> first | rfl | (exfalso; push_neg at *; try simp_all; try linarith)

/-- Claim C5, counterexample: the claim says `analyzeBehavior` always
returns all four fields, but when feature extraction fails entirely
(event query raises) the default analysis carries no `features` field. -/
theorem c5_counterexample :
    analyze_behavior_pattern sBad "t" = default_analysis ∧
    (analyze_behavior_pattern sBad "t").features = none := ⟨rfl, rfl⟩

/-- Claim C5, amended: `analyzeBehavior` always succeeds; when feature
extraction fails entirely (unavailable event list, or a NULL duration
with a non-empty event list) it returns the three-field default analysis
with pattern `unknown`, score 0.0 and interests `{[], 0}` and no
`features` field; when extraction succeeds all four fields are present. -/
theorem c5_amended :
    (∀ (dur : Option ℤ) (now : String),
       analyze_behavior_pattern ⟨dur, none⟩ now = default_analysis) ∧
    (∀ (e : Event) (evs : List Event) (now : String),
       analyze_behavior_pattern ⟨none, some (e :: evs)⟩ now = default_analysis) ∧
    default_analysis.behavior_pattern = "unknown" ∧
    default_analysis.engagement_score = 0 ∧
    default_analysis.interest_categories = ⟨[], 0, none⟩ ∧
    (∀ (d : ℤ) (evs : List Event) (now : String),
       (analyze_behavior_pattern ⟨some d, some evs⟩ now).features.isSome = true) := by
  refine ⟨fun dur now => rfl, fun e evs now => rfl, rfl, rfl, rfl, ?_⟩
  intro d evs now
  cases evs <;> rfl

/-- Claim C6, counterexample: the claim says a NULL duration is treated
as 0 in `avg_time_per_event = duration / total_events`, but on a session
with NULL duration and one event the division raises a `TypeError` and
the whole extraction returns the empty feature dict instead. -/
theorem c6_counterexample : extract_session_features noDurationSession = none := rfl

/-- Claim C6, amended: on a session with non-NULL duration `d`,
extraction succeeds and `avg_time_per_event = d / total_events` when
`total_events > 0` and `0` otherwise; on a session with zero events
(any duration), `total_events = 0` and `avg_time_per_event = 0` with no
division by zero. -/
theorem c6_amended :
    (∀ (d : ℤ) (evs : List Event), ∃ f,
       extract_session_features ⟨some d, some evs⟩ = some f ∧
       f.total_events = some (evs.length : ℚ) ∧
       f.avg_time_per_event = some (if 0 < evs.length then (d : ℚ) / evs.length else 0)) ∧
    (∀ dur : Option ℤ, ∃ f,
       extract_session_features ⟨dur, some []⟩ = some f ∧
       f.total_events = some 0 ∧ f.avg_time_per_event = some 0) := by
  constructor
  · intro d evs
    cases evs with
    | nil => exact ⟨_, rfl, rfl, by norm_num [avgTimePerEvent]⟩
    | cons e es =>
      refine ⟨_, rfl, rfl, ?_⟩
      simp [extract_session_features, avgTimePerEvent]
  · intro dur
    exact ⟨_, rfl, rfl, rfl⟩

/-- Claim C7, counterexample: on three `product_view` events (product 1
twice, then a NULL product id), interest extraction returns
`viewed_products = [1, 1]` (not distinct-in-order, contrary to the
claim) and `total_views = 2` although there are 3 product-view events
(the NULL-id event is not counted, contrary to the claim). -/
theorem c7_counterexample :
    extract_interests s7 "t" = ⟨[1, 1], 2, some "t"⟩ ∧
    countType evs7 "product_view" = 3 := ⟨rfl, rfl⟩

/-- Claim C7, amended: interest extraction scans only the
`product_view` events; `viewed_products` is the first at-most-10
non-null viewed product ids in order with duplicates retained, and
`total_views` is the count of product-view events with a non-null
product id (which may exceed 10). -/
theorem c7_amended (dur : Option ℤ) (evs : List Event) (now : String) :
    extract_interests ⟨dur, some evs⟩ now =
      { viewed_products := (truthyIds (evs.filter (fun e => e.event_type == "product_view"))).take 10
        total_views := (truthyIds (evs.filter (fun e => e.event_type == "product_view"))).length
        last_updated := some now } ∧
    (extract_interests ⟨dur, some evs⟩ now).viewed_products.length ≤ 10 := by
  refine ⟨rfl, ?_⟩
  simp [extract_interests, List.length_take]

/-- Claim C8, code bug: `_get_similar_products` expresses exactly the
claimed co-visitation query, but the module never imports `db`, so
`db.func.count` raises `NameError` on every call and the method always
returns `[]`; on `store8` the spec-side co-visitation yields `[2]`
while the code yields `[]`. -/
theorem c8_tier1_dead :
    get_similar_products store8 [1] [1] 5 = [] ∧
    similarProductsSpec store8 "s" [1] [1] 5 = [2] := ⟨rfl, rfl⟩

/-- Claim C9, counterexample: two calls of `analyzeBehavior` on the
unchanged session `s9` at different wall-clock times differ, because
`interest_categories.last_updated` stamps the current time. -/
theorem c9_counterexample :
    analyze_behavior_pattern s9 "2024-01-01T00:00:00" ≠
      analyze_behavior_pattern s9 "2024-01-01T00:00:01" := by
  intro h
  have ha : (analyze_behavior_pattern s9 "2024-01-01T00:00:00").interest_categories.last_updated =
      some "2024-01-01T00:00:00" := rfl
  have hb : (analyze_behavior_pattern s9 "2024-01-01T00:00:01").interest_categories.last_updated =
      some "2024-01-01T00:00:01" := rfl
  rw [h, hb] at ha
  simp at ha

/-- Claim C9, amended: two calls of `analyzeBehavior` on an unchanged
session agree on everything except possibly the `last_updated`
timestamp inside `interest_categories`: pattern, score, features,
viewed products and view totals are all identical. -/
theorem c9_amended (s : Session) (t1 t2 : String) :
    (analyze_behavior_pattern s t1).behavior_pattern = (analyze_behavior_pattern s t2).behavior_pattern ∧
    (analyze_behavior_pattern s t1).engagement_score = (analyze_behavior_pattern s t2).engagement_score ∧
    (analyze_behavior_pattern s t1).features = (analyze_behavior_pattern s t2).features ∧
    (analyze_behavior_pattern s t1).interest_categories.viewed_products =
      (analyze_behavior_pattern s t2).interest_categories.viewed_products ∧
    (analyze_behavior_pattern s t1).interest_categories.total_views =
      (analyze_behavior_pattern s t2).interest_categories.total_views := by
  unfold analyze_behavior_pattern
  cases hx : extract_session_features s <;>
    simp [extract_interests] <;> cases s.events <;> simp

/-- Claim C10, confirmed: the engagement score depends only on the six
weighted features — two feature dicts agreeing on them (regardless of
`avg_time_per_event`) get the same score. -/
theorem c10_score_ignores_avg_time (f g : FeatDict)
    (h1 : f.session_duration = g.session_duration)
    (h2 : f.total_events = g.total_events)
    (h3 : f.product_views = g.product_views)
    (h4 : f.image_clicks = g.image_clicks)
    (h5 : f.video_plays = g.video_plays)
    (h6 : f.unique_products = g.unique_products) :
    calculate_engagement_score f = calculate_engagement_score g := by
  cases f; cases g
  dsimp only at h1 h2 h3 h4 h5 h6
  subst h1; subst h2; subst h3; subst h4; subst h5; subst h6
  rfl

/-- Witness for `c10_score_ignores_avg_time`: two dicts differing only
in `avg_time_per_event` score identically. -/
theorem c10_witness :
    calculate_engagement_score ⟨some 0, some 0, some 0, some 0, some 0, some 0, some 1⟩ =
      calculate_engagement_score ⟨some 0, some 0, some 0, some 0, some 0, some 0, some 2⟩ :=
  c10_score_ignores_avg_time _ _ rfl rfl rfl rfl rfl rfl

end DS
